import Mathlib

/-!
Verification development for the porter application-release reconciler
(`api/server/handlers/porter_app/create.go`) and the CLI stack-deploy hook
(`cli/cmd/stack`, function `applyStack`).

The handler `ServeHTTP` is embedded as a pure function over an oracle
environment `Env` that fixes the outcome of every external call (helm agent,
kubernetes agent, relational repository, chart loader, yaml parser) made
during one reconciliation.  The function returns an `Outcome`: the ordered
list of mutating external calls attempted (`actions`), the ordered list of
API errors reported (`errors`), and the success result written, if any.
Read-only calls (release probes, DB reads, chart loads, registry listing)
are not recorded as actions; only cluster mutations and DB writes are.
-/

/-- A helm values map (Go `map[string]interface{}`), abstracted to an
association list; Go `nil` maps are modelled as `Option`'s `none` where
nil-ness is significant. -/
abbrev ValuesMap := List (String × String)

/-- Image repository/tag pair (Go `types.ImageInfo`). -/
structure ImageInfo where
  repository : String := ""
  tag : String := ""
  deriving DecidableEq, Repr, Inhabited

/-- A helm release as seen by the reconciler: name, version counter,
stored config values and chart metadata dependencies. -/
structure Release where
  name : String := ""
  version : Nat := 0
  config : ValuesMap := []
  dependencies : List String := []
  deriving DecidableEq, Repr, Inhabited

/-- The relational application row (Go `models.PorterApp`). -/
structure PorterApp where
  id : Nat := 0
  name : String := ""
  clusterID : Nat := 0
  projectID : Nat := 0
  repoName : String := ""
  gitRepoID : Nat := 0
  gitBranch : String := ""
  buildContext : String := ""
  builder : String := ""
  buildpacks : String := ""
  dockerfile : String := ""
  imageRepoURI : String := ""
  pullRequestURL : String := ""
  porterYamlPath : String := ""
  deriving DecidableEq, Repr, Inhabited

/-- The decoded request body (Go `types.CreatePorterAppRequest`). -/
structure CreatePorterAppRequest where
  porterYAMLBase64 : String := ""
  imageInfo : ImageInfo := {}
  overrideRelease : Bool := false
  repoName : String := ""
  gitRepoID : Nat := 0
  gitBranch : String := ""
  buildContext : String := ""
  builder : String := ""
  buildpacks : String := ""
  dockerfile : String := ""
  imageRepoURI : String := ""
  pullRequestURL : String := ""
  porterYamlPath : String := ""
  deriving DecidableEq, Repr, Inhabited

/-- Cluster scope of the request. -/
structure Cluster where
  id : Nat := 0
  projectID : Nat := 0
  deriving DecidableEq, Repr, Inhabited

/-- Project scope of the request. -/
structure Project where
  id : Nat := 0
  deriving DecidableEq, Repr, Inhabited

/-- Output of `parse` (the porter.yaml template resolution): main chart values
and the optional release-job values (`none` models Go's nil map, signalling
that no job release is desired). The chart object itself is opaque. -/
structure ParseOutput where
  values : ValuesMap := []
  releaseJobValues : Option ValuesMap := none
  deriving DecidableEq, Repr, Inhabited

/-- Identifies the site of an error reported through `HandleAPIError`. -/
inductive ErrSite where
  | decodeRequest
  | urlParam
  | helmAgent
  | k8sAgent
  | decodeYaml
  | listRegistries
  | parseYaml
  | createNamespace
  | jobChartConf
  | installJob
  | uninstallJob
  | deployApp
  | uninstallApp
  | readApp
  | conflict
  | writeApp
  | loadJobChart
  | upgradeJob
  | readAppUpdate
  | writeAppUpdate
  deriving DecidableEq, Repr

/-- An error reported to the client: `internal` is `NewErrInternal`,
`passThrough` is `NewErrPassThroughToClient` with its HTTP status. -/
inductive ApiError where
  | internal (site : ErrSite)
  | passThrough (site : ErrSite) (status : Nat)
  deriving DecidableEq, Repr

/-- A mutating external call attempted by the reconciler, in order:
cluster mutations (namespace creation, chart install / uninstall /
upgrade) and relational writes (app row upsert, deploy-event append). -/
inductive Effect where
  | createNamespace (ns : String)
  | installChart (name : String) (ns : String) (values : Option ValuesMap)
  | uninstallChart (name : String)
  | upgradeInstallChart (name : String) (ns : String) (values : ValuesMap)
  | upgradeRelease (name : String) (values : ValuesMap)
  | updatePorterApp (app : PorterApp)
  | createEvent (status : String) (appID : Nat) (revision : Nat)
  deriving DecidableEq, Repr

/-- The observable outcome of one reconciliation: attempted mutating calls in
order, errors reported in order, and the success result if one was written. -/
structure Outcome where
  actions : List Effect := []
  errors : List ApiError := []
  result : Option PorterApp := none
  deriving DecidableEq, Repr

/-- Oracle environment: the outcome of each external call the handler can
make during one reconciliation.  `Except Unit` results model Go
`(value, err)` returns whose error content the handler does not inspect. -/
structure Env where
  decodeOK : Bool := true
  stackNameParam : Except Unit String := .ok "api"
  helmAgentOK : Bool := true
  k8sAgentOK : Bool := true
  getRelease : Except Unit Release := .ok {}
  base64Yaml : Except Unit (List Nat) := .ok []
  registries : Except Unit (List Nat) := .ok []
  imageFromRelease : ImageInfo := {}
  readAppBuilder : Except Unit PorterApp := .ok {}
  parseOutput : Except Unit ParseOutput := .ok {}
  createNamespaceOK : Bool := true
  loadJobChartConfOK : Bool := true
  installJobOK : Bool := true
  uninstallJobOK : Bool := true
  installMainOK : Bool := true
  uninstallMainOK : Bool := true
  readAppCreate : Except Unit PorterApp := .ok {}
  updateAppOK : Bool := true
  createEventOK : Bool := true
  getJobRelease : Except Unit Release := .ok {}
  loadJobChartUpdateOK : Bool := true
  upgradeJobOK : Bool := true
  upgradeInstallMainOK : Bool := true
  readAppUpdate : Except Unit PorterApp := .ok {}

/-- Whether a Go multi-return call succeeded (`err == nil`). -/
def callOK {ε α : Type} : Except ε α → Bool
  | .ok _ => true
  | .error _ => false

/-- Lines 109-115 of create.go: when the request carries no builder, attempt
to read it from the stored row; on read failure the request is unchanged. -/
def prefillBuilder (env : Env) (request : CreatePorterAppRequest) :
    CreatePorterAppRequest :=
  if request.builder = "" then
    match env.readAppBuilder with
    | .ok app => { request with builder := app.builder }
    | .error _ => request
  else request

/-- Create.go lines 322-324: the update-path patch of the repoName field. -/
def patchRepoName (request : CreatePorterAppRequest) (app : PorterApp) :
    PorterApp :=
  if request.repoName ≠ "" then { app with repoName := request.repoName } else app

/-- Create.go lines 325-327: the update-path patch of the gitBranch field. -/
def patchGitBranch (request : CreatePorterAppRequest) (app : PorterApp) :
    PorterApp :=
  if request.gitBranch ≠ "" then { app with gitBranch := request.gitBranch } else app

/-- Create.go lines 328-330: the update-path patch of the buildContext field. -/
def patchBuildContext (request : CreatePorterAppRequest) (app : PorterApp) :
    PorterApp :=
  if request.buildContext ≠ "" then { app with buildContext := request.buildContext } else app

/-- Create.go lines 331-337: the update-path patch of the builder field. -/
def patchBuilder (request : CreatePorterAppRequest) (app : PorterApp) :
    PorterApp :=
  if request.builder ≠ "" then
    (if request.builder = "null" then { app with builder := "" }
     else { app with builder := request.builder })
  else app

/-- Create.go lines 338-344: the update-path patch of the buildpacks field. -/
def patchBuildpacks (request : CreatePorterAppRequest) (app : PorterApp) :
    PorterApp :=
  if request.buildpacks ≠ "" then
    (if request.buildpacks = "null" then { app with buildpacks := "" }
     else { app with buildpacks := request.buildpacks })
  else app

/-- Create.go lines 345-351: the update-path patch of the dockerfile field. -/
def patchDockerfile (request : CreatePorterAppRequest) (app : PorterApp) :
    PorterApp :=
  if request.dockerfile ≠ "" then
    (if request.dockerfile = "null" then { app with dockerfile := "" }
     else { app with dockerfile := request.dockerfile })
  else app

/-- Create.go lines 352-354: the update-path patch of the imageRepoURI field. -/
def patchImageRepoURI (request : CreatePorterAppRequest) (app : PorterApp) :
    PorterApp :=
  if request.imageRepoURI ≠ "" then { app with imageRepoURI := request.imageRepoURI } else app

/-- Create.go lines 355-357: the update-path patch of the pullRequestURL field. -/
def patchPullRequestURL (request : CreatePorterAppRequest) (app : PorterApp) :
    PorterApp :=
  if request.pullRequestURL ≠ "" then { app with pullRequestURL := request.pullRequestURL } else app

/-- Lines 322-357 of create.go: the update path's field patch rules applied
to the stored row, one patch step per source if-block, in source order.
A field with a non-empty incoming value is overwritten; for builder,
buildpacks and dockerfile the literal value "null" clears the stored
field instead. -/
def applyUpdateRules (request : CreatePorterAppRequest) (app : PorterApp) :
    PorterApp :=
  patchPullRequestURL request (patchImageRepoURI request (patchDockerfile request (patchBuildpacks request (patchBuilder request (patchBuildContext request (patchGitBranch request (patchRepoName request app)))))))

/-- Lines 372-394 of create.go: `createPorterAppEvent` builds a DEPLOY event
for the activity feed.  The DB append it performs is recorded as an action;
its error return is produced but, at both call sites, discarded. -/
def createPorterAppEvent (status : String) (appID : Nat) (revision : Nat) :
    Effect :=
  Effect.createEvent status appID revision

/-- Lines 207-222 of create.go: the new `models.PorterApp` row built from
the request on the create path. -/
def newPorterApp (cluster : Cluster) (project : Project)
    (request : CreatePorterAppRequest) (stackName : String) : PorterApp :=
  { name := stackName
    clusterID := cluster.id
    projectID := project.id
    repoName := request.repoName
    gitRepoID := request.gitRepoID
    gitBranch := request.gitBranch
    buildContext := request.buildContext
    builder := request.builder
    buildpacks := request.buildpacks
    dockerfile := request.dockerfile
    imageRepoURI := request.imageRepoURI
    pullRequestURL := request.pullRequestURL
    porterYamlPath := request.porterYamlPath }

/-- Lines 197-233 of create.go: after a successful main-release install,
re-read the row for a name collision, insert the new row, append the
deploy event (error ignored) and write the result. -/
def createRecordSync (env : Env) (cluster : Cluster) (project : Project)
    (request : CreatePorterAppRequest) (stackName : String)
    (acts : List Effect) : Outcome :=
  match env.readAppCreate with
  | .error _ => ⟨acts, [ApiError.internal ErrSite.readApp], none⟩
  | .ok existing =>
    if existing.name ≠ "" then
      ⟨acts, [ApiError.passThrough ErrSite.conflict 403], none⟩
    else
      let app := newPorterApp cluster project request stackName
      let acts := acts ++ [Effect.updatePorterApp app]
      if env.updateAppOK = false then
        ⟨acts, [ApiError.internal ErrSite.writeApp], none⟩
      else
        let acts := acts ++ [createPorterAppEvent "SUCCESS" app.id 1]
        ⟨acts, [], some app⟩

/-- Lines 174-195 of create.go: install the main app chart; on failure report
the deploy error, attempt a rollback uninstall of the main release and,
when that also fails, report the uninstall error in addition. -/
def createMain (env : Env) (cluster : Cluster) (project : Project)
    (request : CreatePorterAppRequest) (stackName ns : String)
    (po : ParseOutput) (acts : List Effect) : Outcome :=
  let acts := acts ++ [Effect.installChart stackName ns (some po.values)]
  if env.installMainOK = false then
    let acts := acts ++ [Effect.uninstallChart stackName]
    ⟨acts,
      [ApiError.passThrough ErrSite.deployApp 400] ++
        (if env.uninstallMainOK then [] else [ApiError.internal ErrSite.uninstallApp]),
      none⟩
  else
    createRecordSync env cluster project request stackName acts

/-- Lines 140-233 of create.go (the `shouldCreate` branch): create the
namespace, optionally install the release-job chart (with rollback of the
job release on its install failure), then install the main chart and
synchronize the relational record. -/
def createPath (env : Env) (cluster : Cluster) (project : Project)
    (request : CreatePorterAppRequest) (stackName ns : String)
    (po : ParseOutput) : Outcome :=
  let acts := [Effect.createNamespace ns]
  if env.createNamespaceOK = false then
    ⟨acts, [ApiError.internal ErrSite.createNamespace], none⟩
  else
    if request.overrideRelease && po.releaseJobValues.isSome then
      if env.loadJobChartConfOK = false then
        ⟨acts, [ApiError.internal ErrSite.jobChartConf], none⟩
      else
        let acts := acts ++
          [Effect.installChart (stackName ++ "-r") ns po.releaseJobValues]
        if env.installJobOK = false then
          let acts := acts ++ [Effect.uninstallChart (stackName ++ "-r")]
          ⟨acts,
            [ApiError.internal ErrSite.installJob] ++
              (if env.uninstallJobOK then [] else [ApiError.internal ErrSite.uninstallJob]),
            none⟩
        else
          createMain env cluster project request stackName ns po acts
    else
      createMain env cluster project request stackName ns po acts

/-- Lines 297-367 of create.go: upgrade-or-install the main chart, re-read
the row, apply the field patch rules, write the row and append the deploy
event (error ignored) with revision = prior main-release version + 1. -/
def updateMain (env : Env) (request : CreatePorterAppRequest)
    (stackName ns : String) (po : ParseOutput) (rel : Release)
    (acts : List Effect) : Outcome :=
  let acts := acts ++ [Effect.upgradeInstallChart stackName ns po.values]
  if env.upgradeInstallMainOK = false then
    ⟨acts, [ApiError.passThrough ErrSite.deployApp 400], none⟩
  else
    match env.readAppUpdate with
    | .error _ => ⟨acts, [ApiError.internal ErrSite.readAppUpdate], none⟩
    | .ok app =>
      let app := applyUpdateRules request app
      let acts := acts ++ [Effect.updatePorterApp app]
      if env.updateAppOK = false then
        ⟨acts, [ApiError.internal ErrSite.writeAppUpdate], none⟩
      else
        let acts := acts ++ [createPorterAppEvent "SUCCESS" app.id (rel.version + 1)]
        ⟨acts, [], some app⟩

/-- Lines 234-368 of create.go (the update branch): when the caller opted
into managing the job release (`overrideRelease`), probe the job release;
if the probe fails, build the job chart config and install it (rolling the
job release back on install failure); if the probe succeeds and the
requested job values are nil, uninstall the job release and return at once;
otherwise load the job chart and upgrade the job release in place.  Then
upgrade the main chart and synchronize the relational record. -/
def updatePath (env : Env) (request : CreatePorterAppRequest)
    (stackName ns : String) (po : ParseOutput) (rel : Release) : Outcome :=
  if request.overrideRelease then
    let releaseJobName := stackName ++ "-r"
    match env.getJobRelease with
    | .error _ =>
      if env.loadJobChartConfOK = false then
        ⟨[], [ApiError.internal ErrSite.jobChartConf], none⟩
      else
        let acts := [Effect.installChart releaseJobName ns po.releaseJobValues]
        if env.installJobOK = false then
          let acts := acts ++ [Effect.uninstallChart releaseJobName]
          ⟨acts,
            [ApiError.internal ErrSite.installJob] ++
              (if env.uninstallJobOK then [] else [ApiError.internal ErrSite.uninstallJob]),
            none⟩
        else
          updateMain env request stackName ns po rel acts
    | .ok jobRel =>
      match po.releaseJobValues with
      | none =>
        let acts := [Effect.uninstallChart releaseJobName]
        ⟨acts,
          if env.uninstallJobOK then [] else [ApiError.internal ErrSite.uninstallJob],
          none⟩
      | some jv =>
        if env.loadJobChartUpdateOK = false then
          ⟨[], [ApiError.passThrough ErrSite.loadJobChart 400], none⟩
        else
          let acts := [Effect.upgradeRelease jobRel.name jv]
          if env.upgradeJobOK = false then
            ⟨acts, [ApiError.internal ErrSite.upgradeJob], none⟩
          else
            updateMain env request stackName ns po rel acts
  else
    updateMain env request stackName ns po rel []

/-- Lines 43-369 of create.go: the whole reconciliation.  Decode the request,
read the stack name, build the agents, probe the main release (`shouldCreate`
is true exactly when the probe errored), decode the manifest, list the
registries, resolve the image info, prefill the builder, parse the manifest,
and branch into the create or update path. -/
def ServeHTTP (env : Env) (cluster : Cluster) (project : Project)
    (request : CreatePorterAppRequest) : Outcome :=
  if env.decodeOK = false then
    ⟨[], [ApiError.internal ErrSite.decodeRequest], none⟩
  else
    match env.stackNameParam with
    | .error _ => ⟨[], [ApiError.passThrough ErrSite.urlParam 400], none⟩
    | .ok stackName =>
      let ns := "porter-stack-" ++ stackName
      if env.helmAgentOK = false then
        ⟨[], [ApiError.internal ErrSite.helmAgent], none⟩
      else if env.k8sAgentOK = false then
        ⟨[], [ApiError.internal ErrSite.k8sAgent], none⟩
      else
        let helmRelease := env.getRelease
        let shouldCreate := callOK helmRelease = false
        match env.base64Yaml with
        | .error _ => ⟨[], [ApiError.internal ErrSite.decodeYaml], none⟩
        | .ok _porterYaml =>
          match env.registries with
          | .error _ => ⟨[], [ApiError.internal ErrSite.listRegistries], none⟩
          | .ok _registries =>
            -- lines 92-107: values/dependencies carried into parse, and the
            -- image-info fallback from the prior release's config; these
            -- only feed the parse oracle.
            let _imageInfo : ImageInfo :=
              if shouldCreate || request.overrideRelease then
                match helmRelease with
                | .ok _rel =>
                  if request.imageInfo.repository = "" ||
                      request.imageInfo.tag = "" then
                    env.imageFromRelease
                  else request.imageInfo
                | .error _ => request.imageInfo
              else request.imageInfo
            let request := prefillBuilder env request
            match env.parseOutput with
            | .error _ => ⟨[], [ApiError.internal ErrSite.parseYaml], none⟩
            | .ok po =>
              match helmRelease with
              | .error _ => createPath env cluster project request stackName ns po
              | .ok rel => updatePath env request stackName ns po rel

/-- Actions of an outcome that touch the job release of stack `sn` (name
`sn ++ "-r"`, or any upgrade of the probed job release). -/
def isJobAction (sn : String) : Effect → Bool
  | .installChart n _ _ => n = sn ++ "-r"
  | .uninstallChart n => n = sn ++ "-r"
  | .upgradeRelease _ _ => true
  | _ => false

/-- The sub-trace of actions directed at the job release of stack `sn`. -/
def Outcome.jobActions (o : Outcome) (sn : String) : List Effect :=
  o.actions.filter (isJobAction sn)

/-- Whether an action is a relational write (app row upsert or event append). -/
def Effect.isDBWrite : Effect → Bool
  | .updatePorterApp _ => true
  | .createEvent _ _ _ => true
  | _ => false

/-- The sub-trace of relational writes of an outcome. -/
def Outcome.dbWrites (o : Outcome) : List Effect :=
  o.actions.filter Effect.isDBWrite

/-- Go `strings.Split(s, ":")` on the character list: splits around every
colon; the empty string yields one empty field. -/
def splitColonChars : List Char → List (List Char)
  | [] => [[]]
  | c :: rest =>
    let r := splitColonChars rest
    if c = ':' then [] :: r
    else
      match r with
      | [] => [[c]]
      | h :: t => (c :: h) :: t

/-- Go `strings.Split(img, ":")` as used by the CLI deploy hook. -/
def goSplitColon (s : String) : List String :=
  (splitColonChars s.data).map (fun cs => String.mk cs)

/-- Image resolution of the CLI stack-deploy hook (`applyStack`, cli side):
the driver output's image string, when present and non-empty, is split on
every colon and elements 0 and 1 are taken as repository and tag.  `none`
models the Go runtime index-out-of-range panic that `imageSpl[1]` raises
when the string contains no colon. -/
def applyStackImageInfo (image : Option String) : Option ImageInfo :=
  match image with
  | none => some {}
  | some img =>
    if img = "" then some {}
    else
      let imageSpl := goSplitColon img
      match imageSpl with
      | s0 :: s1 :: _ => some { repository := s0, tag := s1 }
      | _ => none

/-- Whether an effect is an upgrade of a release (strict or upgrade-install). -/
def Effect.isUpgrade : Effect → Bool
  | .upgradeInstallChart _ _ _ => true
  | .upgradeRelease _ _ => true
  | _ => false

/-- Whether an effect is a namespace creation. -/
def Effect.isNamespaceCreate : Effect → Bool
  | .createNamespace _ => true
  | _ => false

/-- Concrete environment in which the probe of the main release fails. -/
def envProbeErr : Env := { getRelease := .error () }

/-- Concrete environment in which the manifest parse fails. -/
def envParseErr : Env := { parseOutput := .error () }

/-- Concrete environment for the rollback-failure witness: the probe fails,
the main install fails and the rollback uninstall also fails. -/
def envInstallFail : Env :=
  { getRelease := .error (), installMainOK := false, uninstallMainOK := false }

/-- Concrete environment for the conflict witness: the probe fails, the
install succeeds and the post-install re-read finds a row named "api". -/
def envConflict : Env :=
  { getRelease := .error (), readAppCreate := .ok { name := "api" } }

/-- Concrete environment for the job-survival witness: probe fails, job
values requested, job install succeeds, main install fails. -/
def envJobSurvives : Env :=
  { getRelease := .error (), installMainOK := false,
    parseOutput := .ok { releaseJobValues := some [("c", "m")] } }

/-! ## Shared lemmas -/

theorem patchRepoName_fields (request : CreatePorterAppRequest)
    (app : PorterApp) :
    (patchRepoName request app).repoName =
      (if request.repoName = "" then app.repoName else request.repoName) ∧
    (patchRepoName request app).id = app.id ∧
    (patchRepoName request app).name = app.name ∧
    (patchRepoName request app).clusterID = app.clusterID ∧
    (patchRepoName request app).projectID = app.projectID ∧
    (patchRepoName request app).gitRepoID = app.gitRepoID ∧
    (patchRepoName request app).gitBranch = app.gitBranch ∧
    (patchRepoName request app).buildContext = app.buildContext ∧
    (patchRepoName request app).builder = app.builder ∧
    (patchRepoName request app).buildpacks = app.buildpacks ∧
    (patchRepoName request app).dockerfile = app.dockerfile ∧
    (patchRepoName request app).imageRepoURI = app.imageRepoURI ∧
    (patchRepoName request app).pullRequestURL = app.pullRequestURL ∧
    (patchRepoName request app).porterYamlPath = app.porterYamlPath := by
  unfold patchRepoName
  split_ifs <;> simp_all

theorem patchGitBranch_fields (request : CreatePorterAppRequest)
    (app : PorterApp) :
    (patchGitBranch request app).gitBranch =
      (if request.gitBranch = "" then app.gitBranch else request.gitBranch) ∧
    (patchGitBranch request app).id = app.id ∧
    (patchGitBranch request app).name = app.name ∧
    (patchGitBranch request app).clusterID = app.clusterID ∧
    (patchGitBranch request app).projectID = app.projectID ∧
    (patchGitBranch request app).repoName = app.repoName ∧
    (patchGitBranch request app).gitRepoID = app.gitRepoID ∧
    (patchGitBranch request app).buildContext = app.buildContext ∧
    (patchGitBranch request app).builder = app.builder ∧
    (patchGitBranch request app).buildpacks = app.buildpacks ∧
    (patchGitBranch request app).dockerfile = app.dockerfile ∧
    (patchGitBranch request app).imageRepoURI = app.imageRepoURI ∧
    (patchGitBranch request app).pullRequestURL = app.pullRequestURL ∧
    (patchGitBranch request app).porterYamlPath = app.porterYamlPath := by
  unfold patchGitBranch
  split_ifs <;> simp_all

theorem patchBuildContext_fields (request : CreatePorterAppRequest)
    (app : PorterApp) :
    (patchBuildContext request app).buildContext =
      (if request.buildContext = "" then app.buildContext else request.buildContext) ∧
    (patchBuildContext request app).id = app.id ∧
    (patchBuildContext request app).name = app.name ∧
    (patchBuildContext request app).clusterID = app.clusterID ∧
    (patchBuildContext request app).projectID = app.projectID ∧
    (patchBuildContext request app).repoName = app.repoName ∧
    (patchBuildContext request app).gitRepoID = app.gitRepoID ∧
    (patchBuildContext request app).gitBranch = app.gitBranch ∧
    (patchBuildContext request app).builder = app.builder ∧
    (patchBuildContext request app).buildpacks = app.buildpacks ∧
    (patchBuildContext request app).dockerfile = app.dockerfile ∧
    (patchBuildContext request app).imageRepoURI = app.imageRepoURI ∧
    (patchBuildContext request app).pullRequestURL = app.pullRequestURL ∧
    (patchBuildContext request app).porterYamlPath = app.porterYamlPath := by
  unfold patchBuildContext
  split_ifs <;> simp_all

theorem patchBuilder_fields (request : CreatePorterAppRequest)
    (app : PorterApp) :
    (patchBuilder request app).builder =
      (if request.builder = "" then app.builder
       else if request.builder = "null" then "" else request.builder) ∧
    (patchBuilder request app).id = app.id ∧
    (patchBuilder request app).name = app.name ∧
    (patchBuilder request app).clusterID = app.clusterID ∧
    (patchBuilder request app).projectID = app.projectID ∧
    (patchBuilder request app).repoName = app.repoName ∧
    (patchBuilder request app).gitRepoID = app.gitRepoID ∧
    (patchBuilder request app).gitBranch = app.gitBranch ∧
    (patchBuilder request app).buildContext = app.buildContext ∧
    (patchBuilder request app).buildpacks = app.buildpacks ∧
    (patchBuilder request app).dockerfile = app.dockerfile ∧
    (patchBuilder request app).imageRepoURI = app.imageRepoURI ∧
    (patchBuilder request app).pullRequestURL = app.pullRequestURL ∧
    (patchBuilder request app).porterYamlPath = app.porterYamlPath := by
  unfold patchBuilder
  split_ifs <;> simp_all

theorem patchBuildpacks_fields (request : CreatePorterAppRequest)
    (app : PorterApp) :
    (patchBuildpacks request app).buildpacks =
      (if request.buildpacks = "" then app.buildpacks
       else if request.buildpacks = "null" then "" else request.buildpacks) ∧
    (patchBuildpacks request app).id = app.id ∧
    (patchBuildpacks request app).name = app.name ∧
    (patchBuildpacks request app).clusterID = app.clusterID ∧
    (patchBuildpacks request app).projectID = app.projectID ∧
    (patchBuildpacks request app).repoName = app.repoName ∧
    (patchBuildpacks request app).gitRepoID = app.gitRepoID ∧
    (patchBuildpacks request app).gitBranch = app.gitBranch ∧
    (patchBuildpacks request app).buildContext = app.buildContext ∧
    (patchBuildpacks request app).builder = app.builder ∧
    (patchBuildpacks request app).dockerfile = app.dockerfile ∧
    (patchBuildpacks request app).imageRepoURI = app.imageRepoURI ∧
    (patchBuildpacks request app).pullRequestURL = app.pullRequestURL ∧
    (patchBuildpacks request app).porterYamlPath = app.porterYamlPath := by
  unfold patchBuildpacks
  split_ifs <;> simp_all

theorem patchDockerfile_fields (request : CreatePorterAppRequest)
    (app : PorterApp) :
    (patchDockerfile request app).dockerfile =
      (if request.dockerfile = "" then app.dockerfile
       else if request.dockerfile = "null" then "" else request.dockerfile) ∧
    (patchDockerfile request app).id = app.id ∧
    (patchDockerfile request app).name = app.name ∧
    (patchDockerfile request app).clusterID = app.clusterID ∧
    (patchDockerfile request app).projectID = app.projectID ∧
    (patchDockerfile request app).repoName = app.repoName ∧
    (patchDockerfile request app).gitRepoID = app.gitRepoID ∧
    (patchDockerfile request app).gitBranch = app.gitBranch ∧
    (patchDockerfile request app).buildContext = app.buildContext ∧
    (patchDockerfile request app).builder = app.builder ∧
    (patchDockerfile request app).buildpacks = app.buildpacks ∧
    (patchDockerfile request app).imageRepoURI = app.imageRepoURI ∧
    (patchDockerfile request app).pullRequestURL = app.pullRequestURL ∧
    (patchDockerfile request app).porterYamlPath = app.porterYamlPath := by
  unfold patchDockerfile
  split_ifs <;> simp_all

theorem patchImageRepoURI_fields (request : CreatePorterAppRequest)
    (app : PorterApp) :
    (patchImageRepoURI request app).imageRepoURI =
      (if request.imageRepoURI = "" then app.imageRepoURI else request.imageRepoURI) ∧
    (patchImageRepoURI request app).id = app.id ∧
    (patchImageRepoURI request app).name = app.name ∧
    (patchImageRepoURI request app).clusterID = app.clusterID ∧
    (patchImageRepoURI request app).projectID = app.projectID ∧
    (patchImageRepoURI request app).repoName = app.repoName ∧
    (patchImageRepoURI request app).gitRepoID = app.gitRepoID ∧
    (patchImageRepoURI request app).gitBranch = app.gitBranch ∧
    (patchImageRepoURI request app).buildContext = app.buildContext ∧
    (patchImageRepoURI request app).builder = app.builder ∧
    (patchImageRepoURI request app).buildpacks = app.buildpacks ∧
    (patchImageRepoURI request app).dockerfile = app.dockerfile ∧
    (patchImageRepoURI request app).pullRequestURL = app.pullRequestURL ∧
    (patchImageRepoURI request app).porterYamlPath = app.porterYamlPath := by
  unfold patchImageRepoURI
  split_ifs <;> simp_all

theorem patchPullRequestURL_fields (request : CreatePorterAppRequest)
    (app : PorterApp) :
    (patchPullRequestURL request app).pullRequestURL =
      (if request.pullRequestURL = "" then app.pullRequestURL else request.pullRequestURL) ∧
    (patchPullRequestURL request app).id = app.id ∧
    (patchPullRequestURL request app).name = app.name ∧
    (patchPullRequestURL request app).clusterID = app.clusterID ∧
    (patchPullRequestURL request app).projectID = app.projectID ∧
    (patchPullRequestURL request app).repoName = app.repoName ∧
    (patchPullRequestURL request app).gitRepoID = app.gitRepoID ∧
    (patchPullRequestURL request app).gitBranch = app.gitBranch ∧
    (patchPullRequestURL request app).buildContext = app.buildContext ∧
    (patchPullRequestURL request app).builder = app.builder ∧
    (patchPullRequestURL request app).buildpacks = app.buildpacks ∧
    (patchPullRequestURL request app).dockerfile = app.dockerfile ∧
    (patchPullRequestURL request app).imageRepoURI = app.imageRepoURI ∧
    (patchPullRequestURL request app).porterYamlPath = app.porterYamlPath := by
  unfold patchPullRequestURL
  split_ifs <;> simp_all

theorem serveHTTP_reaches_branch (env : Env) (cluster : Cluster)
    (project : Project) (request : CreatePorterAppRequest) (sn : String)
    (yb regs : List Nat) (po : ParseOutput)
    (hdec : env.decodeOK = true) (hurl : env.stackNameParam = Except.ok sn)
    (hhelm : env.helmAgentOK = true) (hk8s : env.k8sAgentOK = true)
    (hyaml : env.base64Yaml = Except.ok yb)
    (hreg : env.registries = Except.ok regs)
    (hpo : env.parseOutput = Except.ok po) :
    ServeHTTP env cluster project request =
      match env.getRelease with
      | .error _ => createPath env cluster project (prefillBuilder env request)
          sn ("porter-stack-" ++ sn) po
      | .ok rel => updatePath env (prefillBuilder env request) sn
          ("porter-stack-" ++ sn) po rel := by
  unfold ServeHTTP
  rw [hdec, hurl, hhelm, hk8s, hyaml, hreg, hpo]
  simp




theorem createPath_no_upgrade (env : Env) (cluster : Cluster)
    (project : Project) (request : CreatePorterAppRequest) (sn ns : String)
    (po : ParseOutput) :
    ∀ e ∈ (createPath env cluster project request sn ns po).actions,
      e.isUpgrade = false := by
  intro e he
  unfold createPath createMain createRecordSync createPorterAppEvent at he
  repeat' split at he
  all_goals simp_all [Effect.isUpgrade]
  all_goals (rcases he with rfl | rfl | rfl | rfl | rfl <;> rfl)

theorem updatePath_no_namespace (env : Env)
    (request : CreatePorterAppRequest) (sn ns : String) (po : ParseOutput)
    (rel : Release) :
    ∀ e ∈ (updatePath env request sn ns po rel).actions,
      e.isNamespaceCreate = false := by
  intro e he
  unfold updatePath updateMain createPorterAppEvent at he
  repeat' split at he
  all_goals simp_all [Effect.isNamespaceCreate]
  all_goals (rcases he with rfl | rfl | rfl | rfl | rfl <;> rfl)

theorem serveHTTP_cases (env : Env) (cluster : Cluster) (project : Project)
    (request : CreatePorterAppRequest) :
    (ServeHTTP env cluster project request).actions = [] ∨
    (∃ sn po, ServeHTTP env cluster project request =
        createPath env cluster project (prefillBuilder env request) sn
          ("porter-stack-" ++ sn) po) ∨
    (∃ sn po rel, ServeHTTP env cluster project request =
        updatePath env (prefillBuilder env request) sn
          ("porter-stack-" ++ sn) po rel) := by
  unfold ServeHTTP
  cases hdec : env.decodeOK
  · simp
  · cases hurl : env.stackNameParam with
    | error e => simp
    | ok sn =>
      cases hhelm : env.helmAgentOK
      · simp
      · cases hk8s : env.k8sAgentOK
        · simp
        · cases hyaml : env.base64Yaml with
          | error e => simp
          | ok yb =>
            cases hreg : env.registries with
            | error e => simp
            | ok regs =>
              cases hpo : env.parseOutput with
              | error e => simp
              | ok po =>
                cases hrel : env.getRelease with
                | error e => exact Or.inr (Or.inl ⟨sn, po, by simp⟩)
                | ok rel => exact Or.inr (Or.inr ⟨sn, po, rel, by simp⟩)

theorem serveHTTP_no_create_and_upgrade (env : Env) (cluster : Cluster)
    (project : Project) (request : CreatePorterAppRequest) :
    ¬ ((∃ e ∈ (ServeHTTP env cluster project request).actions,
          e.isNamespaceCreate = true) ∧
       (∃ e ∈ (ServeHTTP env cluster project request).actions,
          e.isUpgrade = true)) := by
  rintro ⟨⟨e1, he1, hns⟩, ⟨e2, he2, hup⟩⟩
  rcases serveHTTP_cases env cluster project request with h | ⟨sn, po, h⟩ |
    ⟨sn, po, rel, h⟩
  · rw [h] at he1
    simp at he1
  · rw [h] at he2
    have := createPath_no_upgrade _ _ _ _ _ _ _ _ he2
    simp_all
  · rw [h] at he1
    have := updatePath_no_namespace _ _ _ _ _ _ _ he1
    simp_all

/-! ## Claims -/

/-- Claim C3: for every deploy request that reaches the branching decision
(decoding, agent setup, manifest decoding, registry listing and parsing all
succeed), the reconciler takes the create path exactly when the probe of the
existing main release returned an error — any error counts as absence — and
takes the update path exactly when the probe succeeded; and no reconciliation
ever performs both a create-path namespace creation and an update-path
release upgrade. -/
theorem probe_routes_create_or_update (env : Env) (cluster : Cluster)
    (project : Project) (request : CreatePorterAppRequest) (sn : String)
    (yb regs : List Nat) (po : ParseOutput)
    (hdec : env.decodeOK = true) (hurl : env.stackNameParam = Except.ok sn)
    (hhelm : env.helmAgentOK = true) (hk8s : env.k8sAgentOK = true)
    (hyaml : env.base64Yaml = Except.ok yb)
    (hreg : env.registries = Except.ok regs)
    (hpo : env.parseOutput = Except.ok po) :
    ((∃ e, env.getRelease = Except.error e) →
      ServeHTTP env cluster project request =
        createPath env cluster project (prefillBuilder env request) sn
          ("porter-stack-" ++ sn) po) ∧
    (∀ rel, env.getRelease = Except.ok rel →
      ServeHTTP env cluster project request =
        updatePath env (prefillBuilder env request) sn
          ("porter-stack-" ++ sn) po rel) ∧
    ¬ ((∃ e ∈ (ServeHTTP env cluster project request).actions,
          e.isNamespaceCreate = true) ∧
       (∃ e ∈ (ServeHTTP env cluster project request).actions,
          e.isUpgrade = true)) := by
  refine ⟨?_, ?_, serveHTTP_no_create_and_upgrade env cluster project request⟩
  · rintro ⟨e, he⟩
    rw [serveHTTP_reaches_branch env cluster project request sn yb regs po
      hdec hurl hhelm hk8s hyaml hreg hpo, he]
  · intro rel hrel
    rw [serveHTTP_reaches_branch env cluster project request sn yb regs po
      hdec hurl hhelm hk8s hyaml hreg hpo, hrel]


theorem probe_routes_create_or_update_witness :
    ServeHTTP envProbeErr {} {} {} =
      createPath envProbeErr {} {} (prefillBuilder envProbeErr {}) "api"
        ("porter-stack-" ++ "api") {} :=
  (probe_routes_create_or_update envProbeErr {} {} {} "api" [] [] {}
    rfl rfl rfl rfl rfl rfl rfl).1 ⟨(), rfl⟩

/-- Claim C4: a reconciliation whose manifest parse / template resolution
step fails returns the parse error having performed no cluster mutation and
no relational write at all: its action trace is empty. -/
theorem parse_failure_no_mutation (env : Env) (cluster : Cluster)
    (project : Project) (request : CreatePorterAppRequest) (sn : String)
    (yb regs : List Nat) (e : Unit)
    (hdec : env.decodeOK = true) (hurl : env.stackNameParam = Except.ok sn)
    (hhelm : env.helmAgentOK = true) (hk8s : env.k8sAgentOK = true)
    (hyaml : env.base64Yaml = Except.ok yb)
    (hreg : env.registries = Except.ok regs)
    (hpo : env.parseOutput = Except.error e) :
    ServeHTTP env cluster project request =
      ⟨[], [ApiError.internal ErrSite.parseYaml], none⟩ := by
  unfold ServeHTTP
  rw [hdec, hurl, hhelm, hk8s, hyaml, hreg, hpo]
  simp


theorem parse_failure_no_mutation_witness :
    ServeHTTP envParseErr {} {} {} =
      ⟨[], [ApiError.internal ErrSite.parseYaml], none⟩ :=
  parse_failure_no_mutation envParseErr {} {} {} "api" [] [] ()
    rfl rfl rfl rfl rfl rfl rfl

theorem prefillBuilder_override (env : Env)
    (request : CreatePorterAppRequest) :
    (prefillBuilder env request).overrideRelease = request.overrideRelease := by
  unfold prefillBuilder
  repeat' split
  all_goals rfl

theorem createMain_install_fail (env : Env) (cluster : Cluster)
    (project : Project) (request : CreatePorterAppRequest) (sn ns : String)
    (po : ParseOutput) (acts : List Effect)
    (hmain : env.installMainOK = false) :
    createMain env cluster project request sn ns po acts =
      ⟨acts ++ [Effect.installChart sn ns (some po.values),
          Effect.uninstallChart sn],
        [ApiError.passThrough ErrSite.deployApp 400] ++
          (if env.uninstallMainOK then []
           else [ApiError.internal ErrSite.uninstallApp]), none⟩ := by
  unfold createMain
  simp [hmain]

theorem createPath_to_createMain (env : Env) (cluster : Cluster)
    (project : Project) (request : CreatePorterAppRequest) (sn ns : String)
    (po : ParseOutput)
    (hns : env.createNamespaceOK = true)
    (hjob : request.overrideRelease = false ∨ po.releaseJobValues = none ∨
      (env.loadJobChartConfOK = true ∧ env.installJobOK = true)) :
    createPath env cluster project request sn ns po =
      createMain env cluster project request sn ns po
        ([Effect.createNamespace ns] ++
          (if request.overrideRelease && po.releaseJobValues.isSome then
            [Effect.installChart (sn ++ "-r") ns po.releaseJobValues]
           else [])) := by
  unfold createPath
  cases hcond : request.overrideRelease && po.releaseJobValues.isSome with
  | false => simp [hns, hcond]
  | true =>
    rcases hjob with h | h | ⟨hl, hi⟩
    · rw [h] at hcond
      simp at hcond
    · rw [h] at hcond
      simp at hcond
    · simp [hns, hcond, hl, hi]

/-- Claim C5: on the create path (probe errored; namespace creation
succeeded; the optional job-release stage did not abort), when the
main-release install fails, a rollback uninstall of the main release is
attempted before returning; the original deploy error is always reported
first and a rollback failure is reported in addition to it, never instead
of it; and no relational write (app row or deploy event) occurs and no
success result is produced. -/
theorem install_failure_rollback (env : Env) (cluster : Cluster)
    (project : Project) (request : CreatePorterAppRequest) (sn : String)
    (yb regs : List Nat) (po : ParseOutput) (er : Unit)
    (hdec : env.decodeOK = true) (hurl : env.stackNameParam = Except.ok sn)
    (hhelm : env.helmAgentOK = true) (hk8s : env.k8sAgentOK = true)
    (hyaml : env.base64Yaml = Except.ok yb)
    (hreg : env.registries = Except.ok regs)
    (hpo : env.parseOutput = Except.ok po)
    (hrel : env.getRelease = Except.error er)
    (hns : env.createNamespaceOK = true)
    (hjob : request.overrideRelease = false ∨ po.releaseJobValues = none ∨
      (env.loadJobChartConfOK = true ∧ env.installJobOK = true))
    (hmain : env.installMainOK = false) :
    Effect.uninstallChart sn ∈
      (ServeHTTP env cluster project request).actions ∧
    (ServeHTTP env cluster project request).errors =
      [ApiError.passThrough ErrSite.deployApp 400] ++
        (if env.uninstallMainOK then []
         else [ApiError.internal ErrSite.uninstallApp]) ∧
    (ServeHTTP env cluster project request).dbWrites = [] ∧
    (ServeHTTP env cluster project request).result = none := by
  rw [serveHTTP_reaches_branch env cluster project request sn yb regs po
    hdec hurl hhelm hk8s hyaml hreg hpo, hrel]
  rw [createPath_to_createMain env cluster project (prefillBuilder env request)
    sn ("porter-stack-" ++ sn) po hns
    (by rwa [prefillBuilder_override])]
  rw [createMain_install_fail env cluster project (prefillBuilder env request)
    sn ("porter-stack-" ++ sn) po _ hmain]
  refine ⟨by simp, rfl, ?_, rfl⟩
  cases hcond : (prefillBuilder env request).overrideRelease &&
      po.releaseJobValues.isSome <;>
    simp [hcond, Outcome.dbWrites, Effect.isDBWrite]


theorem install_failure_rollback_witness :
    Effect.uninstallChart "api" ∈
      (ServeHTTP envInstallFail {} {} {}).actions ∧
    (ServeHTTP envInstallFail {} {} {}).errors =
      [ApiError.passThrough ErrSite.deployApp 400] ++
        (if envInstallFail.uninstallMainOK then []
         else [ApiError.internal ErrSite.uninstallApp]) ∧
    (ServeHTTP envInstallFail {} {} {}).dbWrites = [] ∧
    (ServeHTTP envInstallFail {} {} {}).result = none :=
  install_failure_rollback envInstallFail {} {} {} "api" [] [] {} ()
    rfl rfl rfl rfl rfl rfl rfl rfl rfl (Or.inl rfl) rfl

theorem createMain_install_ok (env : Env) (cluster : Cluster)
    (project : Project) (request : CreatePorterAppRequest) (sn ns : String)
    (po : ParseOutput) (acts : List Effect)
    (hmain : env.installMainOK = true) :
    createMain env cluster project request sn ns po acts =
      createRecordSync env cluster project request sn
        (acts ++ [Effect.installChart sn ns (some po.values)]) := by
  unfold createMain
  simp [hmain]

theorem createRecordSync_read_error (env : Env) (cluster : Cluster)
    (project : Project) (request : CreatePorterAppRequest) (sn : String)
    (acts : List Effect) (e : Unit)
    (hread : env.readAppCreate = Except.error e) :
    createRecordSync env cluster project request sn acts =
      ⟨acts, [ApiError.internal ErrSite.readApp], none⟩ := by
  unfold createRecordSync
  rw [hread]

theorem createRecordSync_conflict (env : Env) (cluster : Cluster)
    (project : Project) (request : CreatePorterAppRequest) (sn : String)
    (acts : List Effect) (ex : PorterApp)
    (hread : env.readAppCreate = Except.ok ex) (hname : ex.name ≠ "") :
    createRecordSync env cluster project request sn acts =
      ⟨acts, [ApiError.passThrough ErrSite.conflict 403], none⟩ := by
  unfold createRecordSync
  rw [hread]
  simp [hname]

theorem createRecordSync_insert (env : Env) (cluster : Cluster)
    (project : Project) (request : CreatePorterAppRequest) (sn : String)
    (acts : List Effect) (ex : PorterApp)
    (hread : env.readAppCreate = Except.ok ex) (hname : ex.name = "") :
    createRecordSync env cluster project request sn acts =
      (if env.updateAppOK = false then
        ⟨acts ++ [Effect.updatePorterApp
            (newPorterApp cluster project request sn)],
          [ApiError.internal ErrSite.writeApp], none⟩
      else
        ⟨acts ++ [Effect.updatePorterApp
              (newPorterApp cluster project request sn),
            Effect.createEvent "SUCCESS"
              (newPorterApp cluster project request sn).id 1],
          [], some (newPorterApp cluster project request sn)⟩) := by
  unfold createRecordSync createPorterAppEvent
  rw [hread]
  simp [hname]

theorem createActs_no_db (b : Bool) (sn ns : String) (po : ParseOutput) :
    (([Effect.createNamespace ns] ++
        (if b then [Effect.installChart (sn ++ "-r") ns po.releaseJobValues]
         else [])) ++
      [Effect.installChart sn ns (some po.values)]).filter
        Effect.isDBWrite = [] := by
  cases b <;> simp [Effect.isDBWrite]

theorem serveHTTP_create_eq (env : Env) (cluster : Cluster)
    (project : Project) (request : CreatePorterAppRequest) (sn : String)
    (yb regs : List Nat) (po : ParseOutput) (er : Unit)
    (hdec : env.decodeOK = true) (hurl : env.stackNameParam = Except.ok sn)
    (hhelm : env.helmAgentOK = true) (hk8s : env.k8sAgentOK = true)
    (hyaml : env.base64Yaml = Except.ok yb)
    (hreg : env.registries = Except.ok regs)
    (hpo : env.parseOutput = Except.ok po)
    (hrel : env.getRelease = Except.error er) :
    ServeHTTP env cluster project request =
      createPath env cluster project (prefillBuilder env request) sn
        ("porter-stack-" ++ sn) po := by
  rw [serveHTTP_reaches_branch env cluster project request sn yb regs po
    hdec hurl hhelm hk8s hyaml hreg hpo, hrel]

theorem serveHTTP_update_eq (env : Env) (cluster : Cluster)
    (project : Project) (request : CreatePorterAppRequest) (sn : String)
    (yb regs : List Nat) (po : ParseOutput) (rel : Release)
    (hdec : env.decodeOK = true) (hurl : env.stackNameParam = Except.ok sn)
    (hhelm : env.helmAgentOK = true) (hk8s : env.k8sAgentOK = true)
    (hyaml : env.base64Yaml = Except.ok yb)
    (hreg : env.registries = Except.ok regs)
    (hpo : env.parseOutput = Except.ok po)
    (hrel : env.getRelease = Except.ok rel) :
    ServeHTTP env cluster project request =
      updatePath env (prefillBuilder env request) sn
        ("porter-stack-" ++ sn) po rel := by
  rw [serveHTTP_reaches_branch env cluster project request sn yb regs po
    hdec hurl hhelm hk8s hyaml hreg hpo, hrel]

theorem createActs_no_updateApp (b : Bool) (sn ns : String)
    (po : ParseOutput) (a : PorterApp) :
    Effect.updatePorterApp a ∉
      (([Effect.createNamespace ns] ++
          (if b then
            [Effect.installChart (sn ++ "-r") ns po.releaseJobValues]
           else [])) ++
        [Effect.installChart sn ns (some po.values)]) := by
  cases b <;> simp

/-- Claim C6: on the create path, after a successful main-release install,
when the re-read row already carries a name the reconciliation reports the
collision as a pass-through 403 conflict — never an internal error — writes
no relational row and produces no result; and an app row write occurs
exactly when the re-read succeeded and found no existing name. -/
theorem create_conflict_no_write (env : Env) (cluster : Cluster)
    (project : Project) (request : CreatePorterAppRequest) (sn : String)
    (yb regs : List Nat) (po : ParseOutput) (er : Unit)
    (hdec : env.decodeOK = true) (hurl : env.stackNameParam = Except.ok sn)
    (hhelm : env.helmAgentOK = true) (hk8s : env.k8sAgentOK = true)
    (hyaml : env.base64Yaml = Except.ok yb)
    (hreg : env.registries = Except.ok regs)
    (hpo : env.parseOutput = Except.ok po)
    (hrel : env.getRelease = Except.error er)
    (hns : env.createNamespaceOK = true)
    (hjob : request.overrideRelease = false ∨ po.releaseJobValues = none ∨
      (env.loadJobChartConfOK = true ∧ env.installJobOK = true))
    (hmain : env.installMainOK = true) :
    (∀ ex, env.readAppCreate = Except.ok ex → ex.name ≠ "" →
      (ServeHTTP env cluster project request).errors =
        [ApiError.passThrough ErrSite.conflict 403] ∧
      (ServeHTTP env cluster project request).result = none ∧
      (ServeHTTP env cluster project request).dbWrites = [] ∧
      ∀ s, ApiError.internal s ∉
        (ServeHTTP env cluster project request).errors) ∧
    ((∃ a, Effect.updatePorterApp a ∈
        (ServeHTTP env cluster project request).actions) ↔
      (∃ ex, env.readAppCreate = Except.ok ex ∧ ex.name = "")) := by
  rw [serveHTTP_create_eq env cluster project request sn yb regs po er
    hdec hurl hhelm hk8s hyaml hreg hpo hrel]
  rw [createPath_to_createMain env cluster project (prefillBuilder env request)
    sn ("porter-stack-" ++ sn) po hns
    (by rwa [prefillBuilder_override])]
  rw [createMain_install_ok env cluster project (prefillBuilder env request)
    sn ("porter-stack-" ++ sn) po _ hmain]
  cases hread : env.readAppCreate with
  | error e =>
    rw [createRecordSync_read_error env cluster project
      (prefillBuilder env request) sn _ e hread]
    refine ⟨fun ex hex => by simp at hex, ?_⟩
    constructor
    · rintro ⟨a, ha⟩
      exact absurd ha (createActs_no_updateApp _ _ _ _ _)
    · rintro ⟨ex, hex, _⟩
      simp at hex
  | ok ex =>
    by_cases hname : ex.name = ""
    · rw [createRecordSync_insert env cluster project
        (prefillBuilder env request) sn _ ex hread hname]
      refine ⟨fun ex2 hex2 hne2 => ?_, ?_⟩
      · simp only [Except.ok.injEq] at hex2
        subst hex2
        exact absurd hname hne2
      · constructor
        · intro _
          exact ⟨ex, rfl, hname⟩
        · intro _
          refine ⟨newPorterApp cluster project (prefillBuilder env request) sn, ?_⟩
          cases hup : env.updateAppOK <;> simp [hup]
    · rw [createRecordSync_conflict env cluster project
        (prefillBuilder env request) sn _ ex hread hname]
      refine ⟨fun ex2 hex2 hne2 =>
        ⟨rfl, rfl, createActs_no_db _ _ _ _, by simp⟩, ?_⟩
      constructor
      · rintro ⟨a, ha⟩
        exact absurd ha (createActs_no_updateApp _ _ _ _ _)
      · rintro ⟨ex2, hex2, hn2⟩
        simp only [Except.ok.injEq] at hex2
        subst hex2
        exact absurd hn2 hname


theorem create_conflict_no_write_witness :
    (ServeHTTP envConflict {} {} {}).errors =
      [ApiError.passThrough ErrSite.conflict 403] ∧
    (ServeHTTP envConflict {} {} {}).result = none ∧
    (ServeHTTP envConflict {} {} {}).dbWrites = [] ∧
    (∀ s, ApiError.internal s ∉ (ServeHTTP envConflict {} {} {}).errors) :=
  (create_conflict_no_write envConflict {} {} {} "api" [] [] {} ()
    rfl rfl rfl rfl rfl rfl rfl rfl rfl (Or.inl rfl) rfl).1
    { name := "api" } rfl (by decide)

theorem createPath_job_install (env : Env) (cluster : Cluster)
    (project : Project) (request : CreatePorterAppRequest) (sn ns : String)
    (po : ParseOutput) (jv : ValuesMap)
    (hns : env.createNamespaceOK = true)
    (hov : request.overrideRelease = true)
    (hjv : po.releaseJobValues = some jv)
    (hload : env.loadJobChartConfOK = true)
    (hins : env.installJobOK = true) :
    createPath env cluster project request sn ns po =
      createMain env cluster project request sn ns po
        [Effect.createNamespace ns,
          Effect.installChart (sn ++ "-r") ns (some jv)] := by
  unfold createPath
  simp [hns, hov, hjv, hload, hins]

/-- Claim C10: on the create path with override set and non-empty job
values, the job release is installed before the main release; when the
main-release install then fails, the rollback uninstalls only the main
release — the already-installed job release is not uninstalled — and no
success result is produced. -/
theorem job_survives_main_rollback (env : Env) (cluster : Cluster)
    (project : Project) (request : CreatePorterAppRequest) (sn : String)
    (yb regs : List Nat) (po : ParseOutput) (jv : ValuesMap) (er : Unit)
    (hdec : env.decodeOK = true) (hurl : env.stackNameParam = Except.ok sn)
    (hhelm : env.helmAgentOK = true) (hk8s : env.k8sAgentOK = true)
    (hyaml : env.base64Yaml = Except.ok yb)
    (hreg : env.registries = Except.ok regs)
    (hpo : env.parseOutput = Except.ok po)
    (hrel : env.getRelease = Except.error er)
    (hns : env.createNamespaceOK = true)
    (hov : request.overrideRelease = true)
    (hjv : po.releaseJobValues = some jv)
    (hload : env.loadJobChartConfOK = true)
    (hins : env.installJobOK = true)
    (hmain : env.installMainOK = false) :
    (ServeHTTP env cluster project request).actions =
      [Effect.createNamespace ("porter-stack-" ++ sn),
        Effect.installChart (sn ++ "-r") ("porter-stack-" ++ sn) (some jv),
        Effect.installChart sn ("porter-stack-" ++ sn) (some po.values),
        Effect.uninstallChart sn] ∧
    Effect.uninstallChart (sn ++ "-r") ∉
      (ServeHTTP env cluster project request).actions ∧
    (ServeHTTP env cluster project request).result = none := by
  rw [serveHTTP_create_eq env cluster project request sn yb regs po er
    hdec hurl hhelm hk8s hyaml hreg hpo hrel]
  rw [createPath_job_install env cluster project (prefillBuilder env request)
    sn ("porter-stack-" ++ sn) po jv hns (by rwa [prefillBuilder_override])
    hjv hload hins]
  rw [createMain_install_fail env cluster project (prefillBuilder env request)
    sn ("porter-stack-" ++ sn) po _ hmain]
  have hne : sn ++ "-r" ≠ sn := by
    intro h
    have hlen := congrArg String.length h
    rw [String.length_append] at hlen
    have h2 : ("-r" : String).length = 2 := rfl
    omega
  refine ⟨rfl, ?_, rfl⟩
  simp [hne]


theorem job_survives_main_rollback_witness :
    (ServeHTTP envJobSurvives {} {} { overrideRelease := true }).actions =
      [Effect.createNamespace "porter-stack-api",
        Effect.installChart "api-r" "porter-stack-api" (some [("c", "m")]),
        Effect.installChart "api" "porter-stack-api"
          (some ({} : ParseOutput).values),
        Effect.uninstallChart "api"] ∧
    Effect.uninstallChart "api-r" ∉
      (ServeHTTP envJobSurvives {} {} { overrideRelease := true }).actions ∧
    (ServeHTTP envJobSurvives {} {} { overrideRelease := true }).result =
      none :=
  job_survives_main_rollback envJobSurvives {} {} { overrideRelease := true }
    "api" [] [] { releaseJobValues := some [("c", "m")] } [("c", "m")] ()
    rfl rfl rfl rfl rfl rfl rfl rfl rfl rfl rfl rfl rfl rfl

theorem updateMain_jobActions (env : Env) (request : CreatePorterAppRequest)
    (sn ns : String) (po : ParseOutput) (rel : Release)
    (acts : List Effect) :
    ((updateMain env request sn ns po rel acts).actions).filter
        (isJobAction sn) =
      acts.filter (isJobAction sn) := by
  unfold updateMain createPorterAppEvent
  cases hup : env.upgradeInstallMainOK
  · simp [isJobAction]
  · cases hread : env.readAppUpdate with
    | error e => simp [isJobAction]
    | ok app => cases hw : env.updateAppOK <;> simp [isJobAction]

theorem updateMain_upgrade_fail (env : Env)
    (request : CreatePorterAppRequest) (sn ns : String) (po : ParseOutput)
    (rel : Release) (acts : List Effect)
    (hup : env.upgradeInstallMainOK = false) :
    updateMain env request sn ns po rel acts =
      ⟨acts ++ [Effect.upgradeInstallChart sn ns po.values],
        [ApiError.passThrough ErrSite.deployApp 400], none⟩ := by
  unfold updateMain
  simp [hup]

theorem updateMain_write_fail (env : Env)
    (request : CreatePorterAppRequest) (sn ns : String) (po : ParseOutput)
    (rel : Release) (acts : List Effect) (app : PorterApp)
    (hup : env.upgradeInstallMainOK = true)
    (hread : env.readAppUpdate = Except.ok app)
    (hw : env.updateAppOK = false) :
    updateMain env request sn ns po rel acts =
      ⟨acts ++ [Effect.upgradeInstallChart sn ns po.values,
          Effect.updatePorterApp (applyUpdateRules request app)],
        [ApiError.internal ErrSite.writeAppUpdate], none⟩ := by
  unfold updateMain
  rw [hread]
  simp [hup, hw]

theorem updateMain_success (env : Env)
    (request : CreatePorterAppRequest) (sn ns : String) (po : ParseOutput)
    (rel : Release) (acts : List Effect) (app : PorterApp)
    (hup : env.upgradeInstallMainOK = true)
    (hread : env.readAppUpdate = Except.ok app)
    (hw : env.updateAppOK = true) :
    updateMain env request sn ns po rel acts =
      ⟨acts ++ [Effect.upgradeInstallChart sn ns po.values,
          Effect.updatePorterApp (applyUpdateRules request app),
          Effect.createEvent "SUCCESS" (applyUpdateRules request app).id
            (rel.version + 1)],
        [], some (applyUpdateRules request app)⟩ := by
  unfold updateMain createPorterAppEvent
  rw [hread]
  simp [hup, hw]

theorem updatePath_no_override (env : Env)
    (request : CreatePorterAppRequest) (sn ns : String) (po : ParseOutput)
    (rel : Release) (hov : request.overrideRelease = false) :
    updatePath env request sn ns po rel =
      updateMain env request sn ns po rel [] := by
  unfold updatePath
  simp [hov]

theorem updatePath_job_absent (env : Env)
    (request : CreatePorterAppRequest) (sn ns : String) (po : ParseOutput)
    (rel : Release) (e : Unit)
    (hov : request.overrideRelease = true)
    (hjr : env.getJobRelease = Except.error e)
    (hload : env.loadJobChartConfOK = true)
    (hins : env.installJobOK = true) :
    updatePath env request sn ns po rel =
      updateMain env request sn ns po rel
        [Effect.installChart (sn ++ "-r") ns po.releaseJobValues] := by
  unfold updatePath
  rw [hov, hjr]
  simp [hload, hins]

theorem updatePath_job_absent_install_fail (env : Env)
    (request : CreatePorterAppRequest) (sn ns : String) (po : ParseOutput)
    (rel : Release) (e : Unit)
    (hov : request.overrideRelease = true)
    (hjr : env.getJobRelease = Except.error e)
    (hload : env.loadJobChartConfOK = true)
    (hins : env.installJobOK = false) :
    updatePath env request sn ns po rel =
      ⟨[Effect.installChart (sn ++ "-r") ns po.releaseJobValues,
          Effect.uninstallChart (sn ++ "-r")],
        [ApiError.internal ErrSite.installJob] ++
          (if env.uninstallJobOK then []
           else [ApiError.internal ErrSite.uninstallJob]), none⟩ := by
  unfold updatePath
  rw [hov, hjr]
  simp [hload, hins]

theorem updatePath_job_uninstall (env : Env)
    (request : CreatePorterAppRequest) (sn ns : String) (po : ParseOutput)
    (rel jr : Release)
    (hov : request.overrideRelease = true)
    (hjr : env.getJobRelease = Except.ok jr)
    (hjv : po.releaseJobValues = none) :
    updatePath env request sn ns po rel =
      ⟨[Effect.uninstallChart (sn ++ "-r")],
        if env.uninstallJobOK then []
        else [ApiError.internal ErrSite.uninstallJob], none⟩ := by
  unfold updatePath
  rw [hov, hjr]
  simp [hjv]

theorem updatePath_job_upgrade (env : Env)
    (request : CreatePorterAppRequest) (sn ns : String) (po : ParseOutput)
    (rel jr : Release) (jv : ValuesMap)
    (hov : request.overrideRelease = true)
    (hjr : env.getJobRelease = Except.ok jr)
    (hjv : po.releaseJobValues = some jv)
    (hload : env.loadJobChartUpdateOK = true)
    (hupg : env.upgradeJobOK = true) :
    updatePath env request sn ns po rel =
      updateMain env request sn ns po rel
        [Effect.upgradeRelease jr.name jv] := by
  unfold updatePath
  rw [hov, hjr]
  simp [hjv, hload, hupg]

/-- Claim C1 counterexample: an update request with override set, an absent
job release (probe errors) and empty (nil) requested job values does not
leave the job release alone as the state-machine table demands: the code
installs the job chart with nil values. -/
theorem jobStateMachine_noop_cex :
    callOK ({ getJobRelease := .error () } : Env).getJobRelease = false ∧
    ({ getJobRelease := .error () } : Env).parseOutput =
      Except.ok { releaseJobValues := none } ∧
    (ServeHTTP { getJobRelease := .error () } {} {}
        { overrideRelease := true }).jobActions "api" =
      [Effect.installChart "api-r" "porter-stack-api" none] :=
  ⟨rfl, rfl, rfl⟩

/-- Claim C1 amended: on the update path with override set, the action on
the job release is: probe failed (release treated as absent) — install the
job chart with the requested values, even when they are nil; release
present and requested values nil — uninstall it; release present and
requested values non-nil — upgrade it in place. -/
theorem jobStateMachine_update (env : Env) (cluster : Cluster)
    (project : Project) (request : CreatePorterAppRequest) (sn : String)
    (yb regs : List Nat) (po : ParseOutput) (rel : Release)
    (hdec : env.decodeOK = true) (hurl : env.stackNameParam = Except.ok sn)
    (hhelm : env.helmAgentOK = true) (hk8s : env.k8sAgentOK = true)
    (hyaml : env.base64Yaml = Except.ok yb)
    (hreg : env.registries = Except.ok regs)
    (hpo : env.parseOutput = Except.ok po)
    (hrel : env.getRelease = Except.ok rel)
    (hov : request.overrideRelease = true) :
    (∀ e, env.getJobRelease = Except.error e →
      env.loadJobChartConfOK = true →
      ((ServeHTTP env cluster project request).jobActions sn).head? =
        some (Effect.installChart (sn ++ "-r") ("porter-stack-" ++ sn)
          po.releaseJobValues)) ∧
    (∀ jr, env.getJobRelease = Except.ok jr → po.releaseJobValues = none →
      (ServeHTTP env cluster project request).jobActions sn =
        [Effect.uninstallChart (sn ++ "-r")]) ∧
    (∀ jr jv, env.getJobRelease = Except.ok jr →
      po.releaseJobValues = some jv → env.loadJobChartUpdateOK = true →
      env.upgradeJobOK = true →
      (ServeHTTP env cluster project request).jobActions sn =
        [Effect.upgradeRelease jr.name jv]) := by
  rw [serveHTTP_update_eq env cluster project request sn yb regs po rel
    hdec hurl hhelm hk8s hyaml hreg hpo hrel]
  have hov2 : (prefillBuilder env request).overrideRelease = true := by
    rwa [prefillBuilder_override]
  refine ⟨?_, ?_, ?_⟩
  · intro e hjr hload
    by_cases hins : env.installJobOK = true
    · rw [updatePath_job_absent env (prefillBuilder env request) sn
        ("porter-stack-" ++ sn) po rel e hov2 hjr hload hins]
      unfold Outcome.jobActions
      rw [updateMain_jobActions]
      simp [isJobAction]
    · have hins2 : env.installJobOK = false := by
        cases h : env.installJobOK
        · rfl
        · exact absurd h hins
      rw [updatePath_job_absent_install_fail env (prefillBuilder env request)
        sn ("porter-stack-" ++ sn) po rel e hov2 hjr hload hins2]
      simp [Outcome.jobActions, isJobAction]
  · intro jr hjr hjv
    rw [updatePath_job_uninstall env (prefillBuilder env request) sn
      ("porter-stack-" ++ sn) po rel jr hov2 hjr hjv]
    simp [Outcome.jobActions, isJobAction]
  · intro jr jv hjr hjv hload hupg
    rw [updatePath_job_upgrade env (prefillBuilder env request) sn
      ("porter-stack-" ++ sn) po rel jr jv hov2 hjr hjv hload hupg]
    unfold Outcome.jobActions
    rw [updateMain_jobActions]
    simp [isJobAction]

theorem jobStateMachine_update_witness :
    ((ServeHTTP { getJobRelease := .error () } {} {}
        { overrideRelease := true }).jobActions "api").head? =
      some (Effect.installChart ("api" ++ "-r") ("porter-stack-" ++ "api")
        ({} : ParseOutput).releaseJobValues) :=
  (jobStateMachine_update { getJobRelease := .error () } {} {}
    { overrideRelease := true } "api" [] [] {} {}
    rfl rfl rfl rfl rfl rfl rfl rfl rfl).1 () rfl rfl

/-- Claim C2 counterexample: an update request with override set, empty
(nil) job values and a previously existing job release uninstalls the job
release and returns at once: the trace holds no main-release upgrade and no
deploy event, and no success result is produced — contradicting the claimed
uninstall-then-upgrade-then-event sequence. -/
theorem emptyJobValues_earlyReturn_cex :
    ({} : Env).getJobRelease = Except.ok {} ∧
    ({} : Env).parseOutput = Except.ok { releaseJobValues := none } ∧
    ServeHTTP {} {} {} { overrideRelease := true } =
      ⟨[Effect.uninstallChart "api-r"], [], none⟩ :=
  ⟨rfl, rfl, rfl⟩

/-- Claim C2 amended: on an update request with override set and empty
(nil) job values where the job release exists, the reconciliation
uninstalls the job release and terminates immediately: the main release is
not upgraded, no DeployEvent is appended and no success result is written;
only a failed uninstall is reported. -/
theorem emptyJobValues_uninstall_only (env : Env) (cluster : Cluster)
    (project : Project) (request : CreatePorterAppRequest) (sn : String)
    (yb regs : List Nat) (po : ParseOutput) (rel jr : Release)
    (hdec : env.decodeOK = true) (hurl : env.stackNameParam = Except.ok sn)
    (hhelm : env.helmAgentOK = true) (hk8s : env.k8sAgentOK = true)
    (hyaml : env.base64Yaml = Except.ok yb)
    (hreg : env.registries = Except.ok regs)
    (hpo : env.parseOutput = Except.ok po)
    (hrel : env.getRelease = Except.ok rel)
    (hov : request.overrideRelease = true)
    (hjr : env.getJobRelease = Except.ok jr)
    (hjv : po.releaseJobValues = none) :
    ServeHTTP env cluster project request =
      ⟨[Effect.uninstallChart (sn ++ "-r")],
        if env.uninstallJobOK then []
        else [ApiError.internal ErrSite.uninstallJob], none⟩ := by
  rw [serveHTTP_update_eq env cluster project request sn yb regs po rel
    hdec hurl hhelm hk8s hyaml hreg hpo hrel]
  exact updatePath_job_uninstall env (prefillBuilder env request) sn
    ("porter-stack-" ++ sn) po rel jr (by rwa [prefillBuilder_override])
    hjr hjv

theorem emptyJobValues_uninstall_only_witness :
    ServeHTTP { uninstallJobOK := false } {} {} { overrideRelease := true } =
      ⟨[Effect.uninstallChart "api-r"],
        if ({ uninstallJobOK := false } : Env).uninstallJobOK then []
        else [ApiError.internal ErrSite.uninstallJob], none⟩ :=
  emptyJobValues_uninstall_only { uninstallJobOK := false } {} {}
    { overrideRelease := true } "api" [] [] {} {} {}
    rfl rfl rfl rfl rfl rfl rfl rfl rfl rfl rfl

/-- Claim C7 counterexample: on the update path, the clear-sentinel "null"
does not clear every field: for imageRepoURI (as for repoName, gitBranch,
buildContext and pullRequestURL) the literal string "null" is stored as the
new value instead of clearing the field. -/
theorem sentinel_clear_cex :
    (ServeHTTP { readAppUpdate := .ok { imageRepoURI := "x" } } {} {}
        { imageRepoURI := "null" }).result =
      some { imageRepoURI := "null" } ∧
    applyUpdateRules { imageRepoURI := "null" } { imageRepoURI := "x" } =
      { imageRepoURI := "null" } ∧
    ("null" : String) ≠ "" :=
  ⟨rfl, rfl, by decide⟩

/-- Claim C7 amended: the update-path field rules leave a field unchanged
when the incoming value is empty and overwrite it when non-empty; the
literal sentinel "null" clears only the builder, buildpacks and dockerfile
fields — for repoName, gitBranch, buildContext, imageRepoURI and
pullRequestURL it is stored literally like any non-empty value — and the
identity and remaining fields are never modified. -/
theorem applyUpdateRules_fields (request : CreatePorterAppRequest)
    (app : PorterApp) :
    (applyUpdateRules request app).repoName =
      (if request.repoName = "" then app.repoName else request.repoName) ∧
    (applyUpdateRules request app).gitBranch =
      (if request.gitBranch = "" then app.gitBranch else request.gitBranch) ∧
    (applyUpdateRules request app).buildContext =
      (if request.buildContext = "" then app.buildContext
       else request.buildContext) ∧
    (applyUpdateRules request app).builder =
      (if request.builder = "" then app.builder
       else if request.builder = "null" then "" else request.builder) ∧
    (applyUpdateRules request app).buildpacks =
      (if request.buildpacks = "" then app.buildpacks
       else if request.buildpacks = "null" then "" else request.buildpacks) ∧
    (applyUpdateRules request app).dockerfile =
      (if request.dockerfile = "" then app.dockerfile
       else if request.dockerfile = "null" then "" else request.dockerfile) ∧
    (applyUpdateRules request app).imageRepoURI =
      (if request.imageRepoURI = "" then app.imageRepoURI
       else request.imageRepoURI) ∧
    (applyUpdateRules request app).pullRequestURL =
      (if request.pullRequestURL = "" then app.pullRequestURL
       else request.pullRequestURL) ∧
    (applyUpdateRules request app).id = app.id ∧
    (applyUpdateRules request app).name = app.name ∧
    (applyUpdateRules request app).clusterID = app.clusterID ∧
    (applyUpdateRules request app).projectID = app.projectID ∧
    (applyUpdateRules request app).gitRepoID = app.gitRepoID ∧
    (applyUpdateRules request app).porterYamlPath = app.porterYamlPath := by
  unfold applyUpdateRules
  refine ⟨?_, ?_, ?_, ?_, ?_, ?_, ?_, ?_, ?_, ?_, ?_, ?_, ?_, ?_⟩ <;>
    simp [patchRepoName_fields, patchGitBranch_fields,
      patchBuildContext_fields, patchBuilder_fields, patchBuildpacks_fields,
      patchDockerfile_fields, patchImageRepoURI_fields,
      patchPullRequestURL_fields]

/-- Claim C8 counterexample: when the DeployEvent append fails after a
successful cluster mutation, the reconciliation still reports success with
no error: the event-append failure is silently discarded, not propagated. -/
theorem event_failure_swallowed_cex :
    ({ createEventOK := false } : Env).createEventOK = false ∧
    ServeHTTP { createEventOK := false } {} {} {} =
      ⟨[Effect.upgradeInstallChart "api" "porter-stack-api" [],
          Effect.updatePorterApp {}, Effect.createEvent "SUCCESS" 0 1],
        [], some {}⟩ :=
  ⟨rfl, rfl⟩

/-- Claim C8 amended: on the update path, a failure of the ApplicationSpec
row write propagates synchronously as an internal error with no success
result; when the row write succeeds, the DeployEvent append is attempted
but its outcome is ignored: the reconciliation returns success whatever the
append's oracle says (the conclusion holds with no hypothesis on
createEventOK). -/
theorem db_write_failures (env : Env) (cluster : Cluster)
    (project : Project) (request : CreatePorterAppRequest) (sn : String)
    (yb regs : List Nat) (po : ParseOutput) (rel : Release) (app : PorterApp)
    (hdec : env.decodeOK = true) (hurl : env.stackNameParam = Except.ok sn)
    (hhelm : env.helmAgentOK = true) (hk8s : env.k8sAgentOK = true)
    (hyaml : env.base64Yaml = Except.ok yb)
    (hreg : env.registries = Except.ok regs)
    (hpo : env.parseOutput = Except.ok po)
    (hrel : env.getRelease = Except.ok rel)
    (hov : request.overrideRelease = false)
    (hup : env.upgradeInstallMainOK = true)
    (hread : env.readAppUpdate = Except.ok app) :
    (env.updateAppOK = false →
      ServeHTTP env cluster project request =
        ⟨[Effect.upgradeInstallChart sn ("porter-stack-" ++ sn) po.values,
            Effect.updatePorterApp
              (applyUpdateRules (prefillBuilder env request) app)],
          [ApiError.internal ErrSite.writeAppUpdate], none⟩) ∧
    (env.updateAppOK = true →
      ServeHTTP env cluster project request =
        ⟨[Effect.upgradeInstallChart sn ("porter-stack-" ++ sn) po.values,
            Effect.updatePorterApp
              (applyUpdateRules (prefillBuilder env request) app),
            Effect.createEvent "SUCCESS"
              (applyUpdateRules (prefillBuilder env request) app).id
              (rel.version + 1)],
          [], some (applyUpdateRules (prefillBuilder env request) app)⟩) := by
  rw [serveHTTP_update_eq env cluster project request sn yb regs po rel
    hdec hurl hhelm hk8s hyaml hreg hpo hrel]
  rw [updatePath_no_override env (prefillBuilder env request) sn
    ("porter-stack-" ++ sn) po rel (by rwa [prefillBuilder_override])]
  constructor
  · intro hw
    rw [updateMain_write_fail env (prefillBuilder env request) sn
      ("porter-stack-" ++ sn) po rel [] app hup hread hw]
    rfl
  · intro hw
    rw [updateMain_success env (prefillBuilder env request) sn
      ("porter-stack-" ++ sn) po rel [] app hup hread hw]
    rfl

theorem db_write_failures_witness :
    ServeHTTP { updateAppOK := false } {} {} {} =
      ⟨[Effect.upgradeInstallChart "api" "porter-stack-api" [],
          Effect.updatePorterApp {}],
        [ApiError.internal ErrSite.writeAppUpdate], none⟩ :=
  (db_write_failures { updateAppOK := false } {} {} {} "api" [] [] {} {} {}
    rfl rfl rfl rfl rfl rfl rfl rfl rfl rfl rfl).1 rfl

/-- Claim C9 counterexample: the CLI image resolution is not total: a
non-empty build-output string with no colon makes `imageSpl[1]` raise an
index-out-of-range panic (modelled as `none`); and for a string with more
than one colon the tag is only the segment between the first and second
colon, not everything after the first colon. -/
theorem imageInfo_split_cex :
    applyStackImageInfo (some "myimage") = none ∧
    applyStackImageInfo (some "registry:5000/app:v1") =
      some { repository := "registry", tag := "5000/app" } ∧
    ("5000/app" : String) ≠ "5000/app:v1" :=
  ⟨rfl, rfl, by decide⟩

/-- Claim C9 amended: for an absent or empty build-output image string the
resolution yields the zero value; for a non-empty string containing at
least one colon it yields the pair (segment before the first colon, segment
between the first and second colon); a non-empty string with no colon makes
the resolution fail with an index-out-of-range panic (modelled `none`). -/
theorem applyStackImageInfo_spec (s : String) (hne : s ≠ "") :
    applyStackImageInfo none = some {} ∧
    applyStackImageInfo (some "") = some {} ∧
    (∀ r t rest, goSplitColon s = r :: t :: rest →
      applyStackImageInfo (some s) = some { repository := r, tag := t }) ∧
    (∀ r, goSplitColon s = [r] → applyStackImageInfo (some s) = none) := by
  refine ⟨rfl, rfl, ?_, ?_⟩
  · intro r t rest h
    unfold applyStackImageInfo
    simp [hne, h]
  · intro r h
    unfold applyStackImageInfo
    simp [hne, h]

theorem applyStackImageInfo_spec_witness :
    applyStackImageInfo (some "a:b") =
      some { repository := "a", tag := "b" } :=
  (applyStackImageInfo_spec "a:b" (by decide)).2.2.1 "a" "b" [] rfl
